import Mathlib

/-
  Verification development for the industrial-anomaly-detection repository.

  The inference pipeline of the frontend is embedded shallowly:
  JavaScript numbers are modelled as exact rationals (for the ensemble
  arithmetic and thresholds) or reals (for the trigonometric signal
  generation and the DFT), and Math.random draws are passed in as
  explicit parameters.
-/

namespace AnomalyDetection

/-! ## Data model (src/frontend/src/types/index.ts) -/

/-- Per-detector scores carried by a prediction
    (field model_scores of AnomalyPrediction). -/
structure ModelScores where
  autoencoder : ℚ
  isolation_forest : ℚ
  lstm : ℚ
  deriving DecidableEq

/-- The AnomalyPrediction record. Only the fields that the verified
    claims read are modelled: the optional visualization and metadata
    fields (features, temperature, rul_hours, timestamp, waveform,
    spectrum) do not enter any claim. -/
structure AnomalyPrediction where
  is_anomaly : Bool
  ensemble_score : ℚ
  model_scores : ModelScores
  health_score : ℚ
  deriving DecidableEq

/-! ## Ensemble scoring (src/frontend/src/services/predictionService.ts,
    generateMockPrediction, lines 93-143) -/

/-- JavaScript Number(x.toFixed(4)): rounding to 4 decimal places. -/
def round4 (q : ℚ) : ℚ := round (q * 10000) / 10000

/-- Lines 108-112: the composite ensemble score,
    autoencoderScore * 0.4 + isolationScore * 0.3 + lstmScore * 0.3. -/
def ensembleScore (autoencoderScore isolationScore lstmScore : ℚ) : ℚ :=
  autoencoderScore * 0.4 + isolationScore * 0.3 + lstmScore * 0.3

/-- generateMockPrediction, with the three Math.random-derived detector
    scores passed in as parameters. Line 121: is_anomaly is
    ensembleScore > 0.5; line 122: ensemble_score is the composite
    rounded to 4 decimals; lines 124-126: the per-model scores rounded;
    line 136: health_score is 1.0 - ensembleScore (unrounded). -/
def generateMockPrediction (autoencoderScore isolationScore lstmScore : ℚ) :
    AnomalyPrediction :=
  let e := ensembleScore autoencoderScore isolationScore lstmScore
  { is_anomaly := decide (e > 0.5)
    ensemble_score := round4 e
    model_scores :=
      { autoencoder := round4 autoencoderScore
        isolation_forest := round4 isolationScore
        lstm := round4 lstmScore }
    health_score := 1 - e }

/-! ## EnsembleScorer with graceful degradation (spec section 4.5).
    The backend ensemble combiner (app/models/ensemble.py) is not among
    the provided source files, so its weight renormalization is modelled
    from the spec. -/

/-- Which of the three detectors produced a score this tick. -/
structure Availability where
  reconstruction : Bool
  density : Bool
  temporal : Bool
  deriving DecidableEq

/-- Default ensemble weights: reconstruction 0.4, density 0.3,
    temporal 0.3 (spec section 4.5 and the repository README). -/
def defaultWeights : ℚ × ℚ × ℚ := (0.4, 0.3, 0.3)

/-- Modelled from the spec: the sum of the configured weights over the
    detectors available this tick (EnsembleScorer, spec section 4.5;
    the concrete combiner app/models/ensemble.py is not in the sources). -/
def availableWeightSum (av : Availability) (w : ℚ × ℚ × ℚ) : ℚ :=
  (if av.reconstruction then w.1 else 0) +
  (if av.density then w.2.1 else 0) +
  (if av.temporal then w.2.2 else 0)

/-- Modelled from the spec: the renormalized weight actually applied to
    one detector: its configured weight divided by the total weight of
    the available subset, and 0 when the detector is unavailable. -/
def renormWeight (flag : Bool) (wi total : ℚ) : ℚ :=
  if flag then wi / total else 0

/-- Modelled from the spec: sum of the renormalized weights applied to
    the available detectors. -/
def renormalizedWeightSum (av : Availability) (w : ℚ × ℚ × ℚ) : ℚ :=
  renormWeight av.reconstruction w.1 (availableWeightSum av w) +
  renormWeight av.density w.2.1 (availableWeightSum av w) +
  renormWeight av.temporal w.2.2 (availableWeightSum av w)

/-- Modelled from the spec: composite = sum of weight_i * score_i over
    the detectors available this tick, weights renormalized over the
    available subset (spec section 4.5). -/
def composite (av : Availability) (w : ℚ × ℚ × ℚ) (s : ℚ × ℚ × ℚ) : ℚ :=
  renormWeight av.reconstruction w.1 (availableWeightSum av w) * s.1 +
  renormWeight av.density w.2.1 (availableWeightSum av w) * s.2.1 +
  renormWeight av.temporal w.2.2 (availableWeightSum av w) * s.2.2

/-! ## Risk classification of the composite score
    (RealTimeMonitor, getRiskLevel) -/

/-- The three risk tiers returned by getRiskLevel
    (Low Risk / Medium Risk / High Risk). -/
inductive RiskLevel where
  | low
  | medium
  | high
  deriving DecidableEq

/-- getRiskLevel from the real-time monitoring dashboard:
    anomalyScore < 0.3 is low risk, anomalyScore < 0.6 is medium risk,
    anything else is high risk. -/
def getRiskLevel (anomalyScore : ℚ) : RiskLevel :=
  if anomalyScore < 0.3 then RiskLevel.low
  else if anomalyScore < 0.6 then RiskLevel.medium
  else RiskLevel.high

/-! ## Synthetic sensor data and spectrum
    (predictionService.ts, generateSyntheticSensorData lines 12-40 and
    calculateFFT lines 45-70) -/

/-- Number of spectral bins produced by calculateFFT. The JavaScript
    loop runs for k = 0 while k < N / 2 with real division, so k takes
    the values 0 to the ceiling of N / 2 minus 1. -/
def numBins (N : ℕ) : ℕ := (N + 1) / 2

/-- The frequency array of calculateFFT: the k-th bin is
    k * samplingRate / N. -/
noncomputable def fftFrequencies (N : ℕ) (samplingRate : ℝ) : List ℝ :=
  (List.range (numBins N)).map fun k : ℕ => (k : ℝ) * samplingRate / N

/-- Real part accumulated by the inner DFT loop of calculateFFT. -/
noncomputable def dftReal (signal : List ℝ) (k : ℕ) : ℝ :=
  ∑ n ∈ Finset.range signal.length,
    signal.getD n 0 * Real.cos (2 * Real.pi * k * n / signal.length)

/-- Imaginary part accumulated by the inner DFT loop of calculateFFT
    (the loop subtracts the sine terms). -/
noncomputable def dftImag (signal : List ℝ) (k : ℕ) : ℝ :=
  - ∑ n ∈ Finset.range signal.length,
    signal.getD n 0 * Real.sin (2 * Real.pi * k * n / signal.length)

/-- The magnitude array of calculateFFT: per bin, the square root of the
    squared real and imaginary parts, divided by N. -/
noncomputable def fftMagnitudes (signal : List ℝ) : List ℝ :=
  (List.range (numBins signal.length)).map fun k =>
    Real.sqrt (dftReal signal k ^ 2 + dftImag signal k ^ 2) / signal.length

/-- calculateFFT: the pair of frequency and magnitude arrays. -/
noncomputable def calculateFFT (signal : List ℝ) (samplingRate : ℝ) :
    List ℝ × List ℝ :=
  (fftFrequencies signal.length samplingRate, fftMagnitudes signal)

/-- One sample of generateSyntheticSensorData at index i, with the
    Math.random noise draw passed in explicitly: time is i / 20 seconds
    (samplingRate 20 Hz), the base signal is sines at 30, 60 and 90 Hz
    plus noise, and in the anomalous mode the base is amplitude-modulated
    at 2 Hz and a 120 Hz spike is added. -/
noncomputable def syntheticSample (anomalous : Bool) (noise : ℝ) (i : ℕ) : ℝ :=
  let time : ℝ := i / 20
  let mainFreq := Real.sin (2 * Real.pi * 30 * time) * 1.5
  let harmonic1 := Real.sin (2 * Real.pi * 60 * time) * 0.4
  let harmonic2 := Real.sin (2 * Real.pi * 90 * time) * 0.2
  let signal := mainFreq + harmonic1 + harmonic2 + noise
  if anomalous then
    let spike := Real.sin (2 * Real.pi * 120 * time) * 1.2
    let modulation := 1 + 0.5 * Real.sin (2 * Real.pi * 2 * time)
    signal * modulation + spike
  else signal

/-- generateSyntheticSensorData: 200 samples of the synthetic signal. -/
noncomputable def generateSyntheticSensorData (anomalous : Bool)
    (noise : ℕ → ℝ) : List ℝ :=
  (List.range 200).map fun i => syntheticSample anomalous (noise i) i

/-- A sine evaluated at an argument equal to a natural multiple of pi
    vanishes; helper for the aliasing argument below. -/
lemma sin_alias_zero (m i : ℕ) (x : ℝ)
    (hx : x = ((m * i : ℕ) : ℝ) * Real.pi) : Real.sin x = 0 := by
  rw [hx]
  exact Real.sin_nat_mul_pi _

/-! ## AdaptiveThreshold state (spec sections 3 and 4.6).
    The per-asset threshold calibration component is not among the
    provided source files, so it is modelled from the spec. -/

/-- Per-asset decision-boundary state (spec data model, ThresholdState).
    The rolling rate statistics do not enter the verified invariant and
    are omitted. -/
structure ThresholdState where
  warning_cut : ℚ
  critical_cut : ℚ
  deriving DecidableEq

/-- Modelled from the spec: AdaptiveThreshold (section 4.6) is absent
    from the sources. Per the spec, each operator confirmation recomputes
    a candidate pair of cuts by grid search, and an update violating
    critical_cut > warning_cut is rejected, leaving the state unchanged.
    The grid search objective is abstracted as the candidate pair it
    returns. -/
def applyFeedbackUpdate (s : ThresholdState) (candidate : ℚ × ℚ) : ThresholdState :=
  if candidate.1 < candidate.2 then
    { warning_cut := candidate.1, critical_cut := candidate.2 }
  else s

/-- Modelled from the spec: a sequence of feedback updates applied in
    order to a ThresholdState. -/
def applyFeedbackUpdates (s : ThresholdState) (cs : List (ℚ × ℚ)) : ThresholdState :=
  cs.foldl applyFeedbackUpdate s

/-- A single accepted or rejected update preserves the threshold
    ordering invariant. -/
lemma applyFeedbackUpdate_invariant (s : ThresholdState) (c : ℚ × ℚ)
    (h : s.warning_cut < s.critical_cut) :
    (applyFeedbackUpdate s c).warning_cut < (applyFeedbackUpdate s c).critical_cut := by
  unfold applyFeedbackUpdate
  split
  · assumption
  · exact h

/-! ## Prediction fetching and the data stream
    (predictionService.ts, fetchPrediction lines 75-88 and
    createDataStream lines 148-160) -/

/-- Outcome of the api.post call inside fetchPrediction: either the
    parsed prediction, or a thrown error of any kind. -/
inductive ApiResult where
  | ok (p : AnomalyPrediction)
  | failed
  deriving DecidableEq

/-- fetchPrediction: returns the API response, and on any API error
    falls back to a mock prediction instead of rethrowing. The mock that
    generateMockPrediction would draw is passed in explicitly. -/
def fetchPrediction (apiResult : ApiResult) (mock : AnomalyPrediction) :
    AnomalyPrediction :=
  match apiResult with
  | ApiResult.ok p => p
  | ApiResult.failed => mock

/-- createDataStream: on every timer tick, fetch a prediction and hand
    it to the callback. The stream is the function from tick number to
    the prediction delivered on that tick; API outcomes and mock draws
    per tick are explicit parameters. -/
def createDataStream (apiResults : ℕ → ApiResult)
    (mocks : ℕ → AnomalyPrediction) : ℕ → AnomalyPrediction :=
  fun tick => fetchPrediction (apiResults tick) (mocks tick)

/-- API scenario for the stream witness: the call fails on tick 0 and
    succeeds afterwards. -/
def apiOutageAtZero : ℕ → ApiResult :=
  fun t => if t = 0 then ApiResult.failed
    else ApiResult.ok (generateMockPrediction 0.1 0.1 0.1)

/-- Mock draws for the stream witness. -/
def constantMocks : ℕ → AnomalyPrediction :=
  fun _ => generateMockPrediction 0.2 0.1 0.1

/-! ## Prediction history of the application store
    (useAppStore.ts, addToHistory lines 58-61 and clearHistory line 62) -/

/-- addToHistory: prepend the new prediction and keep the first 100
    entries. -/
def addToHistory (p : AnomalyPrediction) (predictionHistory : List AnomalyPrediction) :
    List AnomalyPrediction :=
  (p :: predictionHistory).take 100

/-- clearHistory: reset the history to the empty list. -/
def clearHistory : List AnomalyPrediction := []

/-- The two store actions that touch predictionHistory. -/
inductive HistoryOp where
  | add (p : AnomalyPrediction)
  | clear

/-- One store action applied to the current history. -/
def historyStep (h : List AnomalyPrediction) (op : HistoryOp) :
    List AnomalyPrediction :=
  match op with
  | HistoryOp.add p => addToHistory p h
  | HistoryOp.clear => clearHistory

/-- A single store action keeps the history within the 100-entry cap. -/
lemma historyStep_length_le (h : List AnomalyPrediction) (op : HistoryOp)
    (hh : h.length ≤ 100) : (historyStep h op).length ≤ 100 := by
  cases op with
  | add p =>
      simp only [historyStep, addToHistory, List.length_take]
      omega
  | clear => simp [historyStep, clearHistory]

/-- Any sequence of store actions keeps the history within the cap. -/
lemma foldl_historyStep_length_le (ops : List HistoryOp) :
    ∀ h : List AnomalyPrediction, h.length ≤ 100 →
      (List.foldl historyStep h ops).length ≤ 100 := by
  induction ops with
  | nil => intro h hh; simpa using hh
  | cons op ops ih =>
      intro h hh
      exact ih _ (historyStep_length_le h op hh)

/-! ## Theorems for claims C1, C2, C3, C4, C8 -/

/-- Claim C1: for every triple of detector scores, the composite ensemble
    score of a prediction equals 0.4 * autoencoder + 0.3 * isolation_forest
    + 0.3 * lstm, which is exactly the spec ensemble under the default
    weights (0.4, 0.3, 0.3) with all three detectors available. -/
theorem ensembleScore_weighted_sum (a i l : ℚ) :
    ensembleScore a i l = 0.4 * a + 0.3 * i + 0.3 * l ∧
    ensembleScore a i l = composite ⟨true, true, true⟩ defaultWeights (a, i, l) := by
  constructor
  · unfold ensembleScore; ring
  · unfold ensembleScore composite renormWeight availableWeightSum defaultWeights
    norm_num; ring

/-- Claim C2 fails as stated: the composite score 0.65 lies in [0.3, 0.7),
    which the claim classifies as the warning tier, but getRiskLevel puts
    every score at or above 0.6 in the top (critical) tier. -/
theorem getRiskLevel_claim_counterexample :
    ((0.3 : ℚ) ≤ 0.65 ∧ (0.65 : ℚ) < 0.7) ∧
    getRiskLevel 0.65 ≠ RiskLevel.medium := by
  refine ⟨⟨by norm_num, by norm_num⟩, ?_⟩
  unfold getRiskLevel
  rw [if_neg (by norm_num), if_neg (by norm_num)]
  simp

/-- Claim C2 (amended): the bootstrap classification of a composite score
    implemented in the dashboard uses cuts 0.3 and 0.6: scores below 0.3
    are the normal tier (low risk), scores in [0.3, 0.6) are the warning
    tier (medium risk), and scores at or above 0.6 are the critical tier
    (high risk). -/
theorem getRiskLevel_cuts (s : ℚ) :
    (s < 0.3 → getRiskLevel s = RiskLevel.low) ∧
    (0.3 ≤ s → s < 0.6 → getRiskLevel s = RiskLevel.medium) ∧
    (0.6 ≤ s → getRiskLevel s = RiskLevel.high) := by
  unfold getRiskLevel
  refine ⟨fun h => if_pos h, fun h1 h2 => ?_, fun h => ?_⟩
  · rw [if_neg (by linarith), if_pos h2]
  · rw [if_neg (by linarith), if_neg (by linarith)]

/-- Witness for the amended claim C2, at scores 0.25, 0.45 and 0.8. -/
theorem getRiskLevel_cuts_witness :
    ((0.25 : ℚ) < 0.3 ∧ getRiskLevel 0.25 = RiskLevel.low) ∧
    ((0.3 : ℚ) ≤ 0.45 ∧ (0.45 : ℚ) < 0.6 ∧ getRiskLevel 0.45 = RiskLevel.medium) ∧
    ((0.6 : ℚ) ≤ 0.8 ∧ getRiskLevel 0.8 = RiskLevel.high) :=
  ⟨⟨by norm_num, (getRiskLevel_cuts 0.25).1 (by norm_num)⟩,
   ⟨by norm_num, by norm_num, (getRiskLevel_cuts 0.45).2.1 (by norm_num) (by norm_num)⟩,
   ⟨by norm_num, (getRiskLevel_cuts 0.8).2.2 (by norm_num)⟩⟩

/-- Claim C3: for every nonempty subset of available detectors, the
    renormalized weights applied under the default weights sum to 1.0,
    in particular to within 1e-9. -/
theorem renormalizedWeightSum_eq_one (av : Availability)
    (h : (av.reconstruction || av.density || av.temporal) = true) :
    |renormalizedWeightSum av defaultWeights - 1| ≤ 1 / 1000000000 := by
  obtain ⟨r, d, t⟩ := av
  cases r <;> cases d <;> cases t <;>
    simp_all [renormalizedWeightSum, renormWeight, availableWeightSum,
      defaultWeights] <;> norm_num

/-- Witness for claim C3: the subset with the temporal detector missing
    (the InsufficientHistoryError degradation case of the spec). -/
theorem renormalizedWeightSum_eq_one_witness :
    ((Availability.mk true true false).reconstruction ||
     (Availability.mk true true false).density ||
     (Availability.mk true true false).temporal) = true ∧
    |renormalizedWeightSum ⟨true, true, false⟩ defaultWeights - 1| ≤ 1 / 1000000000 :=
  ⟨rfl, renormalizedWeightSum_eq_one ⟨true, true, false⟩ rfl⟩

/-- Claim C4: when each detector score lies in [0.1, 0.2], the composite
    score under the default weights is strictly below 0.3, so every such
    healthy window classifies as the normal (low-risk) tier. -/
theorem ensembleScore_healthy_lt (a i l : ℚ)
    (ha1 : 0.1 ≤ a) (ha2 : a ≤ 0.2) (hi1 : 0.1 ≤ i) (hi2 : i ≤ 0.2)
    (hl1 : 0.1 ≤ l) (hl2 : l ≤ 0.2) :
    ensembleScore a i l < 0.3 ∧
    getRiskLevel (ensembleScore a i l) = RiskLevel.low := by
  have h : ensembleScore a i l < 0.3 := by unfold ensembleScore; linarith
  exact ⟨h, if_pos h⟩

/-- Witness for claim C4, at detector scores 0.15 each. -/
theorem ensembleScore_healthy_lt_witness :
    ensembleScore 0.15 0.15 0.15 < 0.3 ∧
    getRiskLevel (ensembleScore 0.15 0.15 0.15) = RiskLevel.low :=
  ensembleScore_healthy_lt 0.15 0.15 0.15 (by norm_num) (by norm_num)
    (by norm_num) (by norm_num) (by norm_num) (by norm_num)

/-- Claim C8: the health score of a generated prediction equals one minus
    the composite ensemble score computed for that prediction. -/
theorem health_score_eq_one_sub_composite (a i l : ℚ) :
    (generateMockPrediction a i l).health_score = 1 - ensembleScore a i l := rfl

/-- Claim C6: starting from any state satisfying the threshold ordering
    invariant, after any sequence of feedback updates the invariant
    critical_cut > warning_cut still holds, and any single update whose
    candidate pair violates the ordering is rejected, leaving the state
    unchanged. -/
theorem threshold_invariant (s : ThresholdState) (cs : List (ℚ × ℚ))
    (h : s.warning_cut < s.critical_cut) :
    (applyFeedbackUpdates s cs).warning_cut <
      (applyFeedbackUpdates s cs).critical_cut ∧
    ∀ c : ℚ × ℚ, c.2 ≤ c.1 → applyFeedbackUpdate s c = s := by
  constructor
  · unfold applyFeedbackUpdates
    induction cs generalizing s with
    | nil => simpa using h
    | cons c cs ih =>
        simpa using ih (applyFeedbackUpdate s c)
          (applyFeedbackUpdate_invariant s c h)
  · intro c hc
    unfold applyFeedbackUpdate
    rw [if_neg (by exact not_lt.mpr hc)]

/-- Witness for claim C6: bootstrap cuts (0.3, 0.7), one violating
    candidate followed by one valid candidate. -/
theorem threshold_invariant_witness :
    (ThresholdState.mk 0.3 0.7).warning_cut <
      (ThresholdState.mk 0.3 0.7).critical_cut ∧
    ((applyFeedbackUpdates ⟨0.3, 0.7⟩ [(0.5, 0.4), (0.35, 0.8)]).warning_cut <
       (applyFeedbackUpdates ⟨0.3, 0.7⟩ [(0.5, 0.4), (0.35, 0.8)]).critical_cut ∧
     ∀ c : ℚ × ℚ, c.2 ≤ c.1 → applyFeedbackUpdate ⟨0.3, 0.7⟩ c = ⟨0.3, 0.7⟩) :=
  ⟨by norm_num,
   threshold_invariant ⟨0.3, 0.7⟩ [(0.5, 0.4), (0.35, 0.8)] (by norm_num)⟩

/-- Claim C7: on a tick where the API call fails, fetchPrediction returns
    the fallback mock instead of propagating the error, and the stream
    keeps delivering: on every other tick it delivers exactly what the
    API call for that tick produced (the response on success, the mock on
    failure). -/
theorem stream_survives_failures (apiResults : ℕ → ApiResult)
    (mocks : ℕ → AnomalyPrediction) (t : ℕ)
    (hfail : apiResults t = ApiResult.failed) :
    createDataStream apiResults mocks t = mocks t ∧
    (∀ t2 p, apiResults t2 = ApiResult.ok p →
      createDataStream apiResults mocks t2 = p) ∧
    (∀ t2, apiResults t2 = ApiResult.failed →
      createDataStream apiResults mocks t2 = mocks t2) := by
  refine ⟨?_, fun t2 p hp => ?_, fun t2 hp => ?_⟩
  · simp [createDataStream, fetchPrediction, hfail]
  · simp [createDataStream, fetchPrediction, hp]
  · simp [createDataStream, fetchPrediction, hp]

/-- Witness for claim C7: an API outage on tick 0 yields the mock on
    tick 0 and the API prediction on tick 1. -/
theorem stream_survives_failures_witness :
    apiOutageAtZero 0 = ApiResult.failed ∧
    createDataStream apiOutageAtZero constantMocks 0 = constantMocks 0 ∧
    createDataStream apiOutageAtZero constantMocks 1 =
      generateMockPrediction 0.1 0.1 0.1 := by
  have h := stream_survives_failures apiOutageAtZero constantMocks 0 rfl
  exact ⟨rfl, h.1, h.2.1 1 _ rfl⟩

/-- Claim C9: the prediction history is bounded and ordered: after any
    sequence of addToHistory and clearHistory actions from the initial
    empty history, at most 100 entries remain; and addToHistory puts the
    new prediction first and keeps the previous entries unchanged and in
    order, dropping only those beyond the 100-entry cap. -/
theorem predictionHistory_bounded_ordered :
    (∀ ops : List HistoryOp, (List.foldl historyStep [] ops).length ≤ 100) ∧
    (∀ (p : AnomalyPrediction) (h : List AnomalyPrediction),
      addToHistory p h = p :: h.take 99) := by
  constructor
  · intro ops
    exact foldl_historyStep_length_le ops [] (by simp)
  · intro p h
    unfold addToHistory
    rw [show (100 : ℕ) = 99 + 1 from rfl, List.take_succ_cons]

/-- Claim C5 concerns code that cannot exhibit the claimed spectrum:
    sampling at 20 Hz aliases every deterministic component of the
    synthetic signal (30, 60, 90 and 120 Hz, all multiples of half the
    sampling rate) to zero at every sample instant, and the computed
    spectrum only spans bins 0 to 9.9 Hz, so no bin lies within one
    spectral bin (0.1 Hz) of 30 Hz and no bin reaches 120 Hz. -/
theorem synthetic_signal_aliased_to_zero :
    (∀ i : ℕ, syntheticSample true 0 i = 0) ∧
    (∀ f ∈ fftFrequencies 200 20, f ≤ 99 / 10) := by
  constructor
  · intro i
    have h30 : Real.sin (2 * Real.pi * 30 * ((i : ℝ) / 20)) = 0 :=
      sin_alias_zero 3 i _ (by push_cast; ring)
    have h60 : Real.sin (2 * Real.pi * 60 * ((i : ℝ) / 20)) = 0 :=
      sin_alias_zero 6 i _ (by push_cast; ring)
    have h90 : Real.sin (2 * Real.pi * 90 * ((i : ℝ) / 20)) = 0 :=
      sin_alias_zero 9 i _ (by push_cast; ring)
    have h120 : Real.sin (2 * Real.pi * 120 * ((i : ℝ) / 20)) = 0 :=
      sin_alias_zero 12 i _ (by push_cast; ring)
    unfold syntheticSample
    simp [h30, h60, h90, h120]
  · intro f hf
    rw [fftFrequencies, List.mem_map] at hf
    obtain ⟨k, hk, rfl⟩ := hf
    rw [List.mem_range] at hk
    have hk99 : (k : ℝ) ≤ 99 := by
      have : k ≤ 99 := by
        have : numBins 200 = 100 := rfl
        omega
      exact_mod_cast this
    push_cast
    rw [div_le_div_iff₀ (by norm_num) (by norm_num)]
    linarith

/-- Witness for the C5 evaluation theorem: sample index 7 and the DC
    bin of the computed spectrum. -/
theorem synthetic_signal_aliased_to_zero_witness :
    syntheticSample true 0 7 = 0 ∧
    ((0 : ℝ) ∈ fftFrequencies 200 20 ∧ (0 : ℝ) ≤ 99 / 10) := by
  have h := synthetic_signal_aliased_to_zero
  have hmem : (0 : ℝ) ∈ fftFrequencies 200 20 := by
    rw [fftFrequencies, List.mem_map]
    exact ⟨0, by simp [numBins], by norm_num⟩
  exact ⟨h.1 7, hmem, h.2 0 hmem⟩

/-- Claim C10 fails as stated for odd signal lengths: for the length-1
    signal the code produces one spectral bin, not floor(1 / 2) = 0. -/
theorem calculateFFT_length_counterexample :
    (calculateFFT [(1 : ℝ)] 1).1.length ≠ [(1 : ℝ)].length / 2 := by
  simp [calculateFFT, fftFrequencies, numBins]

/-- Claim C10 (amended): for every signal of length N at least 1 and
    positive sampling rate, calculateFFT returns frequency and magnitude
    arrays of equal length, the ceiling of N / 2 (which is floor(N / 2)
    for even N), the k-th frequency is k * samplingRate / N, and every
    magnitude is nonnegative. -/
theorem calculateFFT_shape (signal : List ℝ) (fs : ℝ)
    (hN : 1 ≤ signal.length) (hfs : 0 < fs) :
    (calculateFFT signal fs).1.length = (signal.length + 1) / 2 ∧
    (calculateFFT signal fs).2.length = (calculateFFT signal fs).1.length ∧
    (∀ k : ℕ, k < (calculateFFT signal fs).1.length →
      (calculateFFT signal fs).1.getD k 0 = k * fs / signal.length) ∧
    (∀ m ∈ (calculateFFT signal fs).2, 0 ≤ m) := by
  refine ⟨?_, ?_, ?_, ?_⟩
  · simp [calculateFFT, fftFrequencies, numBins]
  · simp [calculateFFT, fftFrequencies, fftMagnitudes]
  · intro k hk
    have hk2 : k < numBins signal.length := by
      simpa [calculateFFT, fftFrequencies] using hk
    have hget : (fftFrequencies signal.length fs)[k]? =
        some ((k : ℝ) * fs / signal.length) := by
      rw [fftFrequencies, List.getElem?_map, List.getElem?_range hk2]
      rfl
    simp [calculateFFT, List.getD, hget]
  · intro m hm
    rw [calculateFFT] at hm
    rw [fftMagnitudes, List.mem_map] at hm
    obtain ⟨k, hk, rfl⟩ := hm
    exact div_nonneg (Real.sqrt_nonneg _) (Nat.cast_nonneg _)

/-- Witness for the amended claim C10, on a length-3 signal at 20 Hz:
    both arrays have 2 entries, the ceiling of 3 / 2. -/
theorem calculateFFT_shape_witness :
    (1 ≤ [(1 : ℝ), 0, 0].length ∧ (0 : ℝ) < 20) ∧
    (calculateFFT [(1 : ℝ), 0, 0] 20).1.length = 2 ∧
    (calculateFFT [(1 : ℝ), 0, 0] 20).2.length = 2 := by
  have h := calculateFFT_shape [(1 : ℝ), 0, 0] 20 (by simp) (by norm_num)
  refine ⟨⟨by simp, by norm_num⟩, ?_, ?_⟩
  · simpa using h.1
  · rw [h.2.1]
    simpa using h.1

end AnomalyDetection
